import Mathlib

/-!
Verification development for the hue-to-govee bridge.

The Go sources are shallowly embedded as follows:
* `float64` values are modelled as exact rationals (`ℚ`); the color-math
  claims under scrutiny concern the algebraic structure of the code
  (branching, clamping, truncation, gamut resolution and projection), which
  exact arithmetic captures faithfully.
* Go `int` values are `ℤ`; Go's `int(f)` conversion of a float (discard the
  fraction, truncate toward zero) is `goInt`, and Go's integer division
  (truncate toward zero) is `Int.tdiv`.
* `math.Pow` and `math.Log` are transcendental; the embedding threads an
  explicit kernel record `Kern` holding those two functions, so that every
  definition stays executable and theorems state their analytic assumptions
  (such as monotonicity of `v ^ (1/2.4)`) as hypotheses.
* `math.Sqrt` appears in `correctToGamut` only inside distance *comparisons*
  and against the sentinel `1e10`; since the square root is strictly
  monotone on nonnegative reals, the embedding compares squared distances
  and uses the squared sentinel `1e20`, which decides every comparison
  exactly as the source does.
* fallible code is `Option`-valued: integer division by zero (a Go runtime
  panic) and the IEEE division by zero in the xy→XYZ conversion (whose
  propagated infinities/NaNs make the final `int` conversions
  implementation-dependent) are both mapped to `none`.
-/

namespace HueToGovee

/-- Coords represents a coordinate pair (internal/hue/types.go). -/
structure Coords where
  x : ℚ
  y : ℚ
deriving DecidableEq, Repr

/-- Gamut represents the color gamut of a light (internal/hue/types.go). -/
structure Gamut where
  red : Coords
  green : Coords
  blue : Coords
deriving DecidableEq, Repr

/-- GamutType represents the color gamut type of a light; in Go it is a
string type with constants "A", "B", "C". -/
abbrev GamutType := String

/-- On represents the on/off state of a light; the Go field `On.On` is named
`isOn` here because `on` is a Lean keyword. -/
structure On where
  isOn : Bool
deriving DecidableEq, Repr

/-- Dimming represents the brightness of a light (`Brightness float64`). -/
structure Dimming where
  brightness : ℚ
deriving DecidableEq, Repr

/-- ColorTemperature represents the color temperature of a light
(`Mirek int`, `MirekValid bool`). -/
structure ColorTemperature where
  mirek : ℤ
  mirekValid : Bool
deriving DecidableEq, Repr

/-- Color represents the color of a light (`XY Coords`, `Gamut`, `GamutType`). -/
structure Color where
  xy : Coords
  gamut : Gamut
  gamutType : GamutType
deriving DecidableEq, Repr

/-- Light represents a Hue light (the `Dynamics` field is irrelevant to the
color conversion and omitted); the Go field `Light.On` is named `onState`
because `on` is a Lean keyword. -/
structure Light where
  onState : On
  dimming : Dimming
  colorTemperature : ColorTemperature
  color : Color
deriving DecidableEq, Repr

/-- Kern packages the two transcendental library functions the Go code calls
(`math.Pow` and `math.Log`), so the embedding stays executable. -/
structure Kern where
  pow : ℚ → ℚ → ℚ
  log : ℚ → ℚ

/-- goInt models Go's conversion of a float to an integer type: the fraction
is discarded (truncation toward zero), so nonnegative values round down and
negative values round up. -/
def goInt (q : ℚ) : ℤ :=
  if 0 ≤ q then ⌊q⌋ else ⌈q⌉

/-- defaultGamut (internal/govee/client.go, package hue). -/
def defaultGamut : Gamut :=
  { red := ⟨6915/10000, 3083/10000⟩, green := ⟨1700/10000, 7000/10000⟩, blue := ⟨1532/10000, 475/10000⟩ }

/-- The gamut registered for GamutTypeA in `gamutMap`. -/
def gamutA : Gamut :=
  { red := ⟨704/1000, 296/1000⟩, green := ⟨2151/10000, 7106/10000⟩, blue := ⟨138/1000, 8/100⟩ }

/-- The gamut registered for GamutTypeB in `gamutMap`. -/
def gamutB : Gamut :=
  { red := ⟨675/1000, 322/1000⟩, green := ⟨409/1000, 518/1000⟩, blue := ⟨167/1000, 4/100⟩ }

/-- The gamut registered for GamutTypeC in `gamutMap`. -/
def gamutC : Gamut :=
  { red := ⟨6915/10000, 3083/10000⟩, green := ⟨1700/10000, 7000/10000⟩, blue := ⟨1532/10000, 475/10000⟩ }

/-- gamutMap, the Go map from gamut type tags to built-in triangles; lookup
of an unregistered tag returns `none` (Go: `ok == false`). -/
def gamutMap (t : GamutType) : Option Gamut :=
  if t = "A" then some gamutA
  else if t = "B" then some gamutB
  else if t = "C" then some gamutC
  else none

/-- isValidGamut checks if a gamut has valid coordinates: false exactly when
all three vertices are the origin (internal/govee/client.go). -/
def isValidGamut (gamut : Gamut) : Bool :=
  !(gamut.red.x == 0 && gamut.red.y == 0 &&
    gamut.green.x == 0 && gamut.green.y == 0 &&
    gamut.blue.x == 0 && gamut.blue.y == 0)

/-- The denominator of the barycentric-coordinate computation in `isInGamut`
(twice the signed area of the gamut triangle). -/
def baryDenominator (g : Gamut) : ℚ :=
  (g.green.y - g.blue.y) * (g.red.x - g.blue.x) +
    (g.blue.x - g.green.x) * (g.red.y - g.blue.y)

/-- The barycentric weight `a` computed by `isInGamut` (weight of the red
vertex). -/
def baryA (p : Coords) (g : Gamut) : ℚ :=
  ((g.green.y - g.blue.y) * (p.x - g.blue.x) +
    (g.blue.x - g.green.x) * (p.y - g.blue.y)) / baryDenominator g

/-- The barycentric weight `b` computed by `isInGamut` (weight of the green
vertex). -/
def baryB (p : Coords) (g : Gamut) : ℚ :=
  ((g.blue.y - g.red.y) * (p.x - g.blue.x) +
    (g.red.x - g.blue.x) * (p.y - g.blue.y)) / baryDenominator g

/-- The barycentric weight `c = 1 - a - b` computed by `isInGamut`. -/
def baryC (p : Coords) (g : Gamut) : ℚ :=
  1 - baryA p g - baryB p g

/-- isInGamut checks if a point is inside the gamut triangle via barycentric
coordinates, boundary inclusive (internal/govee/client.go). The weights
`a`, `b`, `c` are the local variables of the Go function, split here into
the named helpers `baryA`, `baryB`, `baryC` over the shared
`baryDenominator`. -/
def isInGamut (point : Coords) (gamut : Gamut) : Bool :=
  decide (0 ≤ baryA point gamut) && decide (baryA point gamut ≤ 1) &&
  decide (0 ≤ baryB point gamut) && decide (baryB point gamut ≤ 1) &&
  decide (0 ≤ baryC point gamut) && decide (baryC point gamut ≤ 1)

/-- findClosestPoint, the local closure of `correctToGamut`: the clamped
projection of `target` onto the segment `p1`–`p2`, paired with the distance
from `target` to it. The Go code compares `math.Sqrt` distances; because
the square root is strictly monotone on nonnegatives, the embedding carries
the squared distance instead (and `correctToGamut` squares the `1e10`
sentinel accordingly), which leaves every comparison's outcome unchanged. -/
def findClosestPoint (p1 p2 target : Coords) : Coords × ℚ :=
  let dx := p2.x - p1.x
  let dy := p2.y - p1.y
  let lenSq := dx * dx + dy * dy
  if lenSq < 1/10000000000 then
    (p1, (target.x - p1.x) * (target.x - p1.x) + (target.y - p1.y) * (target.y - p1.y))
  else
    let t0 := ((target.x - p1.x) * dx + (target.y - p1.y) * dy) / lenSq
    let t := max 0 (min 1 t0)
    let projX := p1.x + t * dx
    let projY := p1.y + t * dy
    (⟨projX, projY⟩, (target.x - projX) * (target.x - projX) + (target.y - projY) * (target.y - projY))

/-- correctToGamut projects a point to the gamut edge if outside the gamut
(internal/govee/client.go). The accumulator starts from the pair
`(point, 10^20)`: the source initialises `closestDist := 1e10` for
unsquared distances, and `1e20 = (1e10)^2`. -/
def correctToGamut (point : Coords) (gamut : Gamut) : Coords :=
  if isInGamut point gamut then point
  else
    let edges := [(gamut.red, gamut.green), (gamut.green, gamut.blue), (gamut.blue, gamut.red)]
    (edges.foldl
      (fun acc edge =>
        let pd := findClosestPoint edge.1 edge.2 point
        if pd.2 < acc.2 then pd else acc)
      (point, 100000000000000000000)).1

/-- clamp (internal/govee/client.go). -/
def clamp (x minF maxF : ℚ) : ℚ :=
  if x < minF then minF
  else if x > maxF then maxF
  else x

/-- The sRGB gamma encode closure `toGamma` inside `coordsToRGB`;
`math.Pow v (1.0/2.4)` is taken from the kernel record. -/
def toGamma (K : Kern) (v : ℚ) : ℚ :=
  if v ≤ 31308/10000000 then 1292/100 * v
  else 1055/1000 * K.pow v (5/12) - 55/1000

/-- The gamut resolution performed at the top of `coordsToRGB`: an explicit
valid gamut wins, else the `gamutMap` entry for the tag, else
`defaultGamut`. -/
def resolveGamut (gamutType : GamutType) (gamut : Gamut) : Gamut :=
  if isValidGamut gamut then gamut
  else
    match gamutMap gamutType with
    | some g => g
    | none => defaultGamut

/-- coordsToRGB converts XY coordinates and brightness to RGB with gamut
correction (internal/govee/client.go). When the gamut-corrected `y` is `0`
the Go code divides by zero: IEEE arithmetic then propagates Inf/NaN values
and the final `int` conversions are implementation-dependent, so the
embedding returns `none` for that case (there is no guard and no error
channel in the source). -/
def coordsToRGB (K : Kern) (x y : ℚ) (bri : ℤ) (gamutType : GamutType) (gamut : Gamut) :
    Option (ℤ × ℤ × ℤ) :=
  let colorGamut := resolveGamut gamutType gamut
  let corrected := correctToGamut ⟨x, y⟩ colorGamut
  let cx := corrected.x
  let cy := corrected.y
  if cy = 0 then none
  else
    let z := 1 - cx - cy
    let Y := (bri : ℚ) / 100
    let X := Y / cy * cx
    let Z := Y / cy * z
    let rLin := X * (32406/10000) + Y * (-(15372/10000)) + Z * (-(4986/10000))
    let gLin := X * (-(9689/10000)) + Y * (18758/10000) + Z * (415/10000)
    let bLin := X * (557/10000) + Y * (-(2040/10000)) + Z * (10570/10000)
    some (goInt (clamp (toGamma K rLin * 255) 0 255),
          goInt (clamp (toGamma K gLin * 255) 0 255),
          goInt (clamp (toGamma K bLin * 255) 0 255))

/-- ctToRGB converts color temperature in Kelvin to RGB
(internal/govee/client.go). -/
def ctToRGB (K : Kern) (kelvin bri : ℤ) : ℤ × ℤ × ℤ :=
  let temp : ℚ := (kelvin : ℚ) / 100
  let r : ℚ :=
    if temp ≤ 66 then 255
    else
      let r1 := 329698727446/1000000000 * K.pow (temp - 60) (-(1332047592/10000000000))
      let r2 := if r1 < 0 then 0 else r1
      if r2 > 255 then 255 else r2
  let g0 : ℚ :=
    if temp ≤ 66 then 994708025861/10000000000 * K.log temp - 1611195681661/10000000000
    else 2881221695283/10000000000 * K.pow (temp - 60) (-(755148492/10000000000))
  let g1 := if g0 < 0 then 0 else g0
  let g := if g1 > 255 then 255 else g1
  let b : ℚ :=
    if temp ≥ 66 then 255
    else if temp ≤ 19 then 0
    else
      let b1 := 1385177312231/10000000000 * K.log (temp - 10) - 3050447927307/10000000000
      let b2 := if b1 < 0 then 0 else b1
      if b2 > 255 then 255 else b2
  let brightness := (bri : ℚ) / 100
  (goInt (r * brightness), goInt (g * brightness), goInt (b * brightness))

/-- The effective brightness of `ColorToRGB`: the light's reported brightness
truncated to int, overridden by `fixedBrightness` when that is present. -/
def effBrightness (light : Light) (fixedBrightness : Option ℤ) : ℤ :=
  match fixedBrightness with
  | some fb => fb
  | none => goInt light.dimming.brightness

/-- ColorToRGB converts a Light to RGB with gamut correction
(internal/govee/client.go). `none` marks the two failure modes of the
source: the integer division `1000000 / Mirek` with `Mirek = 0` (a Go
runtime panic), and the division by zero inside `coordsToRGB`. -/
def ColorToRGB (K : Kern) (light : Light) (fixedBrightness : Option ℤ) :
    Option (ℤ × ℤ × ℤ) :=
  if !light.onState.isOn then some (0, 0, 0)
  else
    let brightness := effBrightness light fixedBrightness
    if light.colorTemperature.mirekValid then
      if light.colorTemperature.mirek = 0 then none
      else
        let kelvin := Int.tdiv 1000000 light.colorTemperature.mirek
        some (ctToRGB K kelvin brightness)
    else if light.color.xy.x ≠ 0 ∨ light.color.xy.y ≠ 0 then
      coordsToRGB K light.color.xy.x light.color.xy.y brightness
        light.color.gamutType light.color.gamut
    else
      let brightnessValue := Int.tdiv (brightness * 255) 100
      some (brightnessValue, brightnessValue, brightnessValue)

/-- A concrete kernel instance used for evaluating the embedding on closed
inputs whose claims do not depend on the transcendental values. -/
def constKern : Kern :=
  { pow := fun _ _ => 1, log := fun _ => 0 }

/-- PaletteColor represents a single color in a palette; `xy` is the Go
field `Color.XY`, `dimming` the field `Dimming.Brightness`
(internal/hue/types.go). -/
structure PaletteColor where
  xy : Coords
  dimming : ℚ
deriving DecidableEq, Repr

/-- Palette represents a Hue palette; only the `Color` list is consulted by
the scene controller. -/
structure Palette where
  color : List PaletteColor
deriving DecidableEq, Repr

/-- SceneAction contributes `Action.Dimming.Brightness` to the averaged
scene brightness; the Go field `Action.On.On` is named `actionOn` because
`on` is a Lean keyword. -/
structure SceneAction where
  actionOn : Bool
  brightness : ℚ
deriving DecidableEq, Repr

/-- Scene represents a Hue scene; only the fields the scene controller reads
are modelled (palette, speed, actions). -/
structure Scene where
  palette : Palette
  speed : ℚ
  actions : List SceneAction
deriving DecidableEq, Repr

/-- A command issued to the Govee client by the playback loop. `setColor`
carries the (possibly undefined, see `coordsToRGB`) RGB triple. -/
inductive GoveeCommand where
  | setColor (rgb : Option (ℤ × ℤ × ℤ))
  | setBrightness (value : ℤ)
deriving DecidableEq, Repr

/-- The per-step brightness of `runDynamicScene`: the arithmetic mean of the
scene's action brightness values. (With no actions the Go code divides
0 by 0 in floats; no claim touches that case.) -/
def sceneBrightness (scene : Scene) : ℚ :=
  (scene.actions.map SceneAction.brightness).sum / scene.actions.length

/-- The commands one full palette pass of `runDynamicScene` issues: for each
palette color, a SetColor with the converted RGB (gamut type "C", zero
gamut — the loop's hard-coded arguments) followed by a SetBrightness with
the truncated average brightness (internal/hue/types.go). -/
def sceneStepCommands (K : Kern) (scene : Scene) : List GoveeCommand :=
  scene.palette.color.flatMap fun paletteColor =>
    let brightness := sceneBrightness scene
    [GoveeCommand.setColor
       (coordsToRGB K paletteColor.xy.x paletteColor.xy.y (goInt brightness) "C"
         ⟨⟨0, 0⟩, ⟨0, 0⟩, ⟨0, 0⟩⟩),
     GoveeCommand.setBrightness (goInt brightness)]

/-- runDynamicScene, observationally: the commands the loop issues within
`fuel` full palette passes, paired with whether the loop self-terminates.
An empty palette makes the Go loop log a warning and return at once (no
commands, terminated); otherwise the loop repeats palette passes forever
and only exits through context cancellation (never self-terminates).
Note the loop never touches the controller's `activeScenes` map. -/
def runDynamicScene (K : Kern) (scene : Scene) (fuel : ℕ) : List GoveeCommand × Bool :=
  if scene.palette.color.length = 0 then ([], true)
  else ((List.replicate fuel (sceneStepCommands K scene)).flatten, false)

/-- The per-color wait of `runDynamicScene`, in nanoseconds:
`time.Duration(adjustedCycleTime/float64(colorsInPalette)) * time.Second`.
Converting the float to `time.Duration` (an int64) discards the fraction,
and multiplying by `time.Second` scales by 10^9. -/
def timePerColorNanos (scene : Scene) : ℤ :=
  let baseCycleTime : ℚ := 20
  let adjustedCycleTime := baseCycleTime / scene.speed
  let colorsInPalette : ℕ := scene.palette.color.length
  goInt (adjustedCycleTime / colorsInPalette) * 1000000000

/-- The SceneController state: the `activeScenes` map (device id ↦ token
standing for the registered `context.CancelFunc`), a counter for fresh
tokens, and the set of tokens whose cancel function has been invoked. -/
structure ControllerState where
  activeScenes : List (String × ℕ)
  nextToken : ℕ
  cancelledTokens : List ℕ
deriving DecidableEq, Repr

/-- The state `NewSceneController` returns: an empty registration map. -/
def initController : ControllerState :=
  { activeScenes := [], nextToken := 0, cancelledTokens := [] }

/-- Association-list lookup, modelling Go map indexing `m[k]` with its
`ok` flag as an `Option`. -/
def mapLookup (k : String) : List (String × ℕ) → Option ℕ
  | [] => none
  | (k', v) :: rest => if k' = k then some v else mapLookup k rest

/-- Association-list assignment, modelling Go map assignment `m[k] = v`:
replace the existing entry for `k`, or append a new one. -/
def mapAssign (k : String) (v : ℕ) : List (String × ℕ) → List (String × ℕ)
  | [] => [(k, v)]
  | (k', v') :: rest => if k' = k then (k, v) :: rest else (k', v') :: mapAssign k v rest

/-- Association-list removal, modelling Go `delete(m, k)`. -/
def mapDelete (k : String) : List (String × ℕ) → List (String × ℕ)
  | [] => []
  | (k', v') :: rest => if k' = k then rest else (k', v') :: mapDelete k rest

/-- StopScene (internal/hue/types.go): if a registration exists for the
device, invoke its cancel function and delete the registration, else do
nothing. -/
def stopScene (st : ControllerState) (goveeDeviceID : String) : ControllerState :=
  match mapLookup goveeDeviceID st.activeScenes with
  | some tok =>
      { st with
        activeScenes := mapDelete goveeDeviceID st.activeScenes
        cancelledTokens := tok :: st.cancelledTokens }
  | none => st

/-- SetScene (internal/hue/types.go): first StopScene, then register a fresh
cancellation token for the device and spawn the playback loop (modelled
separately by `runDynamicScene`; the loop never mutates this state). -/
def setScene (st : ControllerState) (goveeLightId : String) (_scene : Scene) : ControllerState :=
  let st1 := stopScene st goveeLightId
  { st1 with
    activeScenes := mapAssign goveeLightId st1.nextToken st1.activeScenes
    nextToken := st1.nextToken + 1 }

/-- IsActive (internal/hue/types.go): true iff a registration exists. -/
def isActive (st : ControllerState) (goveeLightID : String) : Bool :=
  (mapLookup goveeLightID st.activeScenes).isSome

/-- The two public mutating operations of the SceneController. -/
inductive SceneOp where
  | set (d : String) (s : Scene)
  | stop (d : String)

/-- Apply one controller operation. -/
def applyOp (st : ControllerState) : SceneOp → ControllerState
  | .set d s => setScene st d s
  | .stop d => stopScene st d

/-- Run a sequence of controller operations from a given state. -/
def runOpsFrom (st : ControllerState) (ops : List SceneOp) : ControllerState :=
  ops.foldl applyOp st

/-- Run a sequence of controller operations from the initial state. -/
def runOps (ops : List SceneOp) : ControllerState :=
  runOpsFrom initController ops

/-- The number of registrations a state holds for a device. -/
def countFor (d : String) (st : ControllerState) : ℕ :=
  st.activeScenes.countP fun p => decide (p.1 = d)

/-- The device an operation addresses. -/
def opDevice : SceneOp → String
  | .set d _ => d
  | .stop d => d

/-- A registration map with no duplicate device keys (the invariant the Go
`map[string]context.CancelFunc` enforces by construction). -/
def NodupKeys (m : List (String × ℕ)) : Prop :=
  (m.map Prod.fst).Nodup

/-- Membership of `q` on the closed segment from `p1` to `p2`. -/
def onSegment (p1 p2 q : Coords) : Prop :=
  ∃ t : ℚ, 0 ≤ t ∧ t ≤ 1 ∧ q.x = p1.x + t * (p2.x - p1.x) ∧ q.y = p1.y + t * (p2.y - p1.y)

/-- Membership of `q` on one of the three edges of the gamut triangle, in
the enumeration order of `correctToGamut`. -/
def onGamutEdge (g : Gamut) (q : Coords) : Prop :=
  onSegment g.red g.green q ∨ onSegment g.green g.blue q ∨ onSegment g.blue g.red q

/-- The specification-side selection of the globally closest of the three
edge projections, ties resolved in favor of the earlier edge (red–green,
then green–blue, then blue–red). Compared against `correctToGamut`. -/
def closestOfThree (e1 e2 e3 : Coords × ℚ) : Coords × ℚ :=
  if e1.2 ≤ e2.2 then (if e1.2 ≤ e3.2 then e1 else e3)
  else (if e2.2 ≤ e3.2 then e2 else e3)

/-- Channelwise order on conversion results: both defined and each channel
of the first at most the corresponding channel of the second. -/
def rgbLe : Option (ℤ × ℤ × ℤ) → Option (ℤ × ℤ × ℤ) → Prop
  | some (r1, g1, b1), some (r2, g2, b2) => r1 ≤ r2 ∧ g1 ≤ g2 ∧ b1 ≤ b2
  | _, _ => False

/-- The all-zero (invalid) gamut, Go's `Gamut{}` zero value. -/
def zeroGamut : Gamut :=
  { red := ⟨0, 0⟩, green := ⟨0, 0⟩, blue := ⟨0, 0⟩ }

/-- Fixture: a light that is off, with adversarial other fields (a valid
mirek of 0 would divide by zero if it were consulted). -/
def lightOff : Light :=
  { onState := ⟨false⟩, dimming := ⟨50⟩, colorTemperature := ⟨0, true⟩,
    color := { xy := ⟨3/10, 3/10⟩, gamut := zeroGamut, gamutType := "C" } }

/-- Fixture: an on light with no valid color temperature, xy = (0,0) and
reported brightness 1 percent. -/
def lightGrey : Light :=
  { onState := ⟨true⟩, dimming := ⟨1⟩, colorTemperature := ⟨0, false⟩,
    color := { xy := ⟨0, 0⟩, gamut := zeroGamut, gamutType := "C" } }

/-- Fixture: an on light with a valid mirek of 2000 and brightness 100. -/
def lightCT : Light :=
  { onState := ⟨true⟩, dimming := ⟨100⟩, colorTemperature := ⟨2000, true⟩,
    color := { xy := ⟨3/10, 3/10⟩, gamut := zeroGamut, gamutType := "C" } }

/-- Fixture: a valid gamut whose blue–red edge lies on the x-axis, so that
gamut-corrected points can have `y = 0`. -/
def gamutXaxis : Gamut :=
  { red := ⟨5/10, 0⟩, green := ⟨3/10, 6/10⟩, blue := ⟨1/10, 0⟩ }

/-- Fixture: a scene whose palette holds no colors. -/
def emptyScene : Scene :=
  { palette := ⟨[]⟩, speed := 1, actions := [] }

/-- Fixture: speed 1, three palette colors (the cycle time 20 s does not
divide evenly). -/
def scene13 : Scene :=
  { palette := ⟨[⟨⟨2/10, 2/10⟩, 0⟩, ⟨⟨3/10, 3/10⟩, 0⟩, ⟨⟨4/10, 4/10⟩, 0⟩]⟩,
    speed := 1, actions := [⟨true, 50⟩] }

/-- Fixture: speed 2, five palette colors (the cycle time 10 s divides
evenly into 2 s steps). -/
def scene25 : Scene :=
  { palette := ⟨[⟨⟨2/10, 2/10⟩, 0⟩, ⟨⟨3/10, 3/10⟩, 0⟩, ⟨⟨4/10, 4/10⟩, 0⟩,
                 ⟨⟨5/10, 4/10⟩, 0⟩, ⟨⟨6/10, 3/10⟩, 0⟩]⟩,
    speed := 2, actions := [⟨true, 50⟩] }

/-! Helper lemmas about the embedding. -/

theorem goInt_eq_of_bounds (q : ℚ) (z : ℤ) (hz : 0 ≤ z) (h1 : (z : ℚ) ≤ q)
    (h2 : q < z + 1) : goInt q = z := by
  have hq : 0 ≤ q := le_trans (by exact_mod_cast hz) h1
  rw [goInt, if_pos hq, Int.floor_eq_iff]
  exact ⟨h1, by exact_mod_cast h2⟩

theorem goInt_mono_of_nonneg {a b : ℚ} (ha : 0 ≤ a) (hab : a ≤ b) :
    goInt a ≤ goInt b := by
  rw [goInt, goInt, if_pos ha, if_pos (ha.trans hab)]
  exact Int.floor_le_floor hab

theorem isInGamut_iff (p : Coords) (g : Gamut) :
    isInGamut p g = true ↔
      0 ≤ baryA p g ∧ baryA p g ≤ 1 ∧ 0 ≤ baryB p g ∧ baryB p g ≤ 1 ∧
        0 ≤ baryC p g ∧ baryC p g ≤ 1 := by
  simp [isInGamut, and_assoc]

theorem isInGamut_eq_false_of_baryA_gt (p : Coords) (g : Gamut)
    (h : ¬ baryA p g ≤ 1) : isInGamut p g = false := by
  simp [isInGamut, h]

/-! C9: an off light converts to black unconditionally. -/

/-- C9: for every light with `on = false`, `ColorToRGB` returns `(0,0,0)`
regardless of every other field and of the fixed-brightness override. -/
theorem colorToRGB_off (K : Kern) (light : Light) (fb : Option ℤ)
    (h : light.onState.isOn = false) : ColorToRGB K light fb = some (0, 0, 0) := by
  simp [ColorToRGB, h]

/-- Witness for C9 at a concrete off light whose other fields are
adversarial (valid mirek 0, nonzero xy, an override). -/
theorem colorToRGB_off_witness : ColorToRGB constKern lightOff (some 70) = some (0, 0, 0) :=
  colorToRGB_off constKern lightOff (some 70) rfl

/-! C6: gamut resolution priority. -/

/-- C6: `coordsToRGB` resolves the gamut by strict priority: a valid
explicit gamut wins; otherwise the built-in triangle for the gamut-type
tag; otherwise the default triangle. In particular an all-zero explicit
gamut with tag "B" resolves to the B triangle. -/
theorem resolveGamut_priority (g : Gamut) (t : GamutType) :
    (isValidGamut g = true → resolveGamut t g = g) ∧
    (isValidGamut g = false → ∀ gb, gamutMap t = some gb → resolveGamut t g = gb) ∧
    (isValidGamut g = false → gamutMap t = none → resolveGamut t g = defaultGamut) ∧
    resolveGamut "B" zeroGamut = gamutB := by
  refine ⟨fun h => by simp [resolveGamut, h], fun h gb hgb => by simp [resolveGamut, h, hgb],
    fun h hn => by simp [resolveGamut, h, hn], ?_⟩
  have hz : isValidGamut zeroGamut = false := by simp [isValidGamut, zeroGamut]
  simp [resolveGamut, hz, gamutMap]

/-- Witness for C6: a valid explicit gamut wins over its tag; the degenerate
gamut falls back to the tag's triangle; an unknown tag falls back to the
default triangle. -/
theorem resolveGamut_priority_witness :
    resolveGamut "A" gamutB = gamutB ∧ resolveGamut "B" zeroGamut = gamutB ∧
      resolveGamut "Z" zeroGamut = defaultGamut := by
  have hvalid : isValidGamut gamutB = true := by simp [isValidGamut, gamutB]
  have hz : isValidGamut zeroGamut = false := by simp [isValidGamut, zeroGamut]
  exact ⟨(resolveGamut_priority gamutB "A").1 hvalid,
    (resolveGamut_priority zeroGamut "B").2.1 hz gamutB (by simp [gamutMap]),
    (resolveGamut_priority zeroGamut "Z").2.2.1 hz (by simp [gamutMap])⟩

/-! C5: the pure-brightness greyscale path. -/

/-- C5 (amended): for an on light with no valid color temperature and
xy = (0,0), `ColorToRGB` returns on all three channels the value
`(brightness * 255) / 100` computed with Go integer division, i.e. the
*truncation* of `brightness * 255 / 100` — not its rounding. -/
theorem colorToRGB_greyscale (K : Kern) (light : Light) (fb : Option ℤ)
    (hon : light.onState.isOn = true) (hv : light.colorTemperature.mirekValid = false)
    (hx : light.color.xy.x = 0) (hy : light.color.xy.y = 0) :
    ColorToRGB K light fb =
      some (Int.tdiv (effBrightness light fb * 255) 100,
            Int.tdiv (effBrightness light fb * 255) 100,
            Int.tdiv (effBrightness light fb * 255) 100) := by
  simp [ColorToRGB, hon, hv, hx, hy]

/-- Witness for C5's amended statement at brightness 2 percent. -/
theorem colorToRGB_greyscale_witness :
    ColorToRGB constKern lightGrey (some 2) =
      some (Int.tdiv (effBrightness lightGrey (some 2) * 255) 100,
            Int.tdiv (effBrightness lightGrey (some 2) * 255) 100,
            Int.tdiv (effBrightness lightGrey (some 2) * 255) 100) :=
  colorToRGB_greyscale constKern lightGrey (some 2) rfl rfl rfl rfl

/-- C5 counterexample: at brightness 1 percent the code returns 2 on each
channel (truncation of 2.55), while the claimed `round(brightness*255/100)`
is 3. -/
theorem colorToRGB_greyscale_not_round :
    ColorToRGB constKern lightGrey none = some (2, 2, 2) ∧
      round ((1 * 255 : ℚ) / 100) = 3 := by
  constructor
  · have hb : effBrightness lightGrey none = 1 := by
      simp [effBrightness, lightGrey, goInt]
    simp only [ColorToRGB, hb]
    simp [lightGrey]
    decide
  · rw [round_eq, Int.floor_eq_iff]
    norm_num

/-! C10: the mirek → Kelvin conversion is an unguarded integer division. -/

/-- C10: for an on light with `MirekValid = true`, `ColorToRGB` divides
`1000000` by `Mirek` with no guard: the result is defined iff `Mirek ≠ 0`
(`Mirek = 0` reaches a division by zero, a Go runtime panic); for positive
`Mirek` the Kelvin value is the integer truncation of `1000000 / Mirek`
and is passed to the black-body approximation `ctToRGB`. -/
theorem colorToRGB_mirek (K : Kern) (light : Light) (fb : Option ℤ)
    (hon : light.onState.isOn = true) (hv : light.colorTemperature.mirekValid = true) :
    (ColorToRGB K light fb = none ↔ light.colorTemperature.mirek = 0) ∧
    (0 < light.colorTemperature.mirek →
      ColorToRGB K light fb =
        some (ctToRGB K (Int.tdiv 1000000 light.colorTemperature.mirek)
          (effBrightness light fb)) ∧
      Int.tdiv 1000000 light.colorTemperature.mirek =
        ⌊(1000000 : ℚ) / (light.colorTemperature.mirek : ℚ)⌋) := by
  have hmain : ColorToRGB K light fb =
      if light.colorTemperature.mirek = 0 then none
      else some (ctToRGB K (Int.tdiv 1000000 light.colorTemperature.mirek)
        (effBrightness light fb)) := by
    by_cases hm : light.colorTemperature.mirek = 0
    · simp [ColorToRGB, hon, hv, hm]
    · simp [ColorToRGB, hon, hv, hm]
  constructor
  · constructor
    · intro h
      by_cases hm : light.colorTemperature.mirek = 0
      · exact hm
      · rw [hmain, if_neg hm] at h
        exact absurd h (by simp)
    · intro hm
      rw [hmain, if_pos hm]
  · intro hpos
    have hm : light.colorTemperature.mirek ≠ 0 := ne_of_gt hpos
    refine ⟨by rw [hmain, if_neg hm], ?_⟩
    obtain ⟨n, hn⟩ : ∃ n : ℕ, light.colorTemperature.mirek = (n : ℤ) :=
      ⟨light.colorTemperature.mirek.toNat, (Int.toNat_of_nonneg hpos.le).symm⟩
    rw [hn]
    have h1 : Int.tdiv 1000000 (n : ℤ) = (1000000 : ℤ) / (n : ℤ) := by
      show Int.tdiv (Int.ofNat 1000000) (Int.ofNat n) = Int.ediv (Int.ofNat 1000000) (Int.ofNat n)
      rfl
    have h2 : ⌊(1000000 : ℚ) / ((n : ℤ) : ℚ)⌋ = (1000000 : ℤ) / ((n : ℕ) : ℤ) := by
      have := Rat.floor_intCast_div_natCast 1000000 n
      push_cast at this ⊢
      exact this
    rw [h1, h2]

/-- Witness for C10 at a concrete light with mirek 2000 (Kelvin 500). -/
theorem colorToRGB_mirek_witness :
    ColorToRGB constKern lightCT none =
      some (ctToRGB constKern (Int.tdiv 1000000 lightCT.colorTemperature.mirek)
        (effBrightness lightCT none)) :=
  ((colorToRGB_mirek constKern lightCT none rfl rfl).2 (by norm_num [lightCT])).1

/-! C3: the per-color wait duration. -/

/-- C3 (amended): for positive speed and a non-empty palette of `n` colors,
the per-step wait is `(20.0/speed)/n` *truncated to a whole number of
seconds* (the `time.Duration` conversion discards the fraction before the
multiplication by `time.Second`), so the wait in nanoseconds is `k * 10^9`
where `k` is the unique integer with `k ≤ (20/speed)/n < k + 1`. -/
theorem timePerColor_truncates (scene : Scene) (hspeed : 0 < scene.speed)
    (hn : 0 < scene.palette.color.length) :
    timePerColorNanos scene =
      goInt (20 / scene.speed / (scene.palette.color.length : ℚ)) * 1000000000 ∧
    (goInt (20 / scene.speed / (scene.palette.color.length : ℚ)) : ℚ) ≤
      20 / scene.speed / (scene.palette.color.length : ℚ) ∧
    20 / scene.speed / (scene.palette.color.length : ℚ) <
      goInt (20 / scene.speed / (scene.palette.color.length : ℚ)) + 1 := by
  have hq : 0 ≤ 20 / scene.speed / (scene.palette.color.length : ℚ) := by
    have h20 : (0 : ℚ) < 20 / scene.speed := by positivity
    have hlen : (0 : ℚ) ≤ (scene.palette.color.length : ℚ) := by positivity
    positivity
  refine ⟨rfl, ?_, ?_⟩
  · rw [goInt, if_pos hq]
    exact Int.floor_le _
  · rw [goInt, if_pos hq]
    exact Int.lt_floor_add_one _

/-- Witness for C3's amended statement: speed 2, five colors, a 2 s step. -/
theorem timePerColor_truncates_witness : timePerColorNanos scene25 = 2000000000 := by
  have h := timePerColor_truncates scene25 (by norm_num [scene25]) (by norm_num [scene25])
  have hq : (20 : ℚ) / scene25.speed / (scene25.palette.color.length : ℚ) = 2 := by
    norm_num [scene25]
  rw [h.1, hq, goInt_eq_of_bounds 2 2 (by norm_num) (by norm_num) (by norm_num)]
  norm_num

/-- C3 counterexample: at speed 1 with three palette colors the code waits
6 s per step, while the claimed `(20.0/speed)/n` seconds is 20/3 s
(6666666666.7 ns): the two differ. -/
theorem timePerColor_not_exact :
    timePerColorNanos scene13 = 6000000000 ∧
      ((6000000000 : ℚ) ≠
        20 / scene13.speed / (scene13.palette.color.length : ℚ) * 1000000000) := by
  constructor
  · show timePerColorNanos scene13 = 6000000000
    have hq : (20 : ℚ) / scene13.speed / (scene13.palette.color.length : ℚ) = 20 / 3 := by
      norm_num [scene13]
    simp only [timePerColorNanos]
    rw [hq, goInt_eq_of_bounds (20 / 3) 6 (by norm_num) (by norm_num) (by norm_num)]
    norm_num
  · norm_num [scene13]

/-! Map lemmas for the SceneController registration state. -/

theorem mapLookup_assign_self (k : String) (v : ℕ) (m : List (String × ℕ)) :
    mapLookup k (mapAssign k v m) = some v := by
  induction m with
  | nil => simp [mapAssign, mapLookup]
  | cons head rest ih =>
    by_cases h : head.1 = k
    · simp [mapAssign, h, mapLookup]
    · simp [mapAssign, h, mapLookup, ih]

theorem mapLookup_assign_ne (k d : String) (v : ℕ) (m : List (String × ℕ))
    (h : k ≠ d) : mapLookup d (mapAssign k v m) = mapLookup d m := by
  induction m with
  | nil => simp [mapAssign, mapLookup, h]
  | cons head rest ih =>
    by_cases hh : head.1 = k
    · simp [mapAssign, hh, mapLookup, h]
    · simp [mapAssign, hh, mapLookup, ih]

theorem mapLookup_delete_ne (k d : String) (m : List (String × ℕ))
    (h : k ≠ d) : mapLookup d (mapDelete k m) = mapLookup d m := by
  induction m with
  | nil => simp [mapDelete]
  | cons head rest ih =>
    by_cases hh : head.1 = k
    · have hd : ¬ head.1 = d := by rw [hh]; exact h
      simp [mapDelete, hh, mapLookup, hd, h]
    · simp [mapDelete, hh, mapLookup, ih]

theorem mapLookup_eq_none_of_not_mem (k : String) (m : List (String × ℕ))
    (h : k ∉ m.map Prod.fst) : mapLookup k m = none := by
  induction m with
  | nil => simp [mapLookup]
  | cons head rest ih =>
    simp only [List.map_cons, List.mem_cons] at h
    push_neg at h
    have h1 : ¬ head.1 = k := fun hh => h.1 hh.symm
    simp [mapLookup, h1, ih h.2]

theorem keys_mapDelete_subset (k : String) (m : List (String × ℕ)) :
    ∀ x, x ∈ (mapDelete k m).map Prod.fst → x ∈ m.map Prod.fst := by
  induction m with
  | nil => simp [mapDelete]
  | cons head rest ih =>
    intro x hx
    by_cases hh : head.1 = k
    · simp only [mapDelete, if_pos hh] at hx
      simp [hx]
    · simp only [mapDelete, if_neg hh, List.map_cons, List.mem_cons] at hx
      rcases hx with hx | hx
      · simp [hx]
      · simp [ih x hx]

theorem nodupKeys_mapDelete (k : String) (m : List (String × ℕ))
    (h : NodupKeys m) : NodupKeys (mapDelete k m) := by
  induction m with
  | nil => simpa [mapDelete] using h
  | cons head rest ih =>
    rw [NodupKeys, List.map_cons, List.nodup_cons] at h
    by_cases hh : head.1 = k
    · simpa [NodupKeys, mapDelete, hh] using h.2
    · rw [NodupKeys, mapDelete, if_neg hh, List.map_cons, List.nodup_cons]
      exact ⟨fun hmem => h.1 (keys_mapDelete_subset k rest _ hmem), ih h.2⟩

theorem keys_mapAssign_subset (k : String) (v : ℕ) (m : List (String × ℕ)) :
    ∀ x, x ∈ (mapAssign k v m).map Prod.fst → x ∈ m.map Prod.fst ∨ x = k := by
  induction m with
  | nil => simp [mapAssign]
  | cons head rest ih =>
    intro x hx
    by_cases hh : head.1 = k
    · simp only [mapAssign, if_pos hh, List.map_cons, List.mem_cons] at hx
      rcases hx with hx | hx
      · exact Or.inr hx
      · exact Or.inl (by simp [hx])
    · simp only [mapAssign, if_neg hh, List.map_cons, List.mem_cons] at hx
      rcases hx with hx | hx
      · exact Or.inl (by simp [hx])
      · rcases ih x hx with h' | h'
        · exact Or.inl (by simp [h'])
        · exact Or.inr h'

theorem nodupKeys_mapAssign (k : String) (v : ℕ) (m : List (String × ℕ))
    (h : NodupKeys m) : NodupKeys (mapAssign k v m) := by
  induction m with
  | nil => simp [NodupKeys, mapAssign]
  | cons head rest ih =>
    rw [NodupKeys, List.map_cons, List.nodup_cons] at h
    by_cases hh : head.1 = k
    · rw [NodupKeys, mapAssign, if_pos hh, List.map_cons, List.nodup_cons]
      exact ⟨by rw [← hh]; exact h.1, h.2⟩
    · rw [NodupKeys, mapAssign, if_neg hh, List.map_cons, List.nodup_cons]
      refine ⟨fun hmem => ?_, ih h.2⟩
      rcases keys_mapAssign_subset k v rest _ hmem with h' | h'
      · exact h.1 h'
      · exact hh h'

theorem mapLookup_mapDelete_self (k : String) (m : List (String × ℕ))
    (h : NodupKeys m) : mapLookup k (mapDelete k m) = none := by
  induction m with
  | nil => simp [mapDelete, mapLookup]
  | cons head rest ih =>
    rw [NodupKeys, List.map_cons, List.nodup_cons] at h
    by_cases hh : head.1 = k
    · rw [mapDelete, if_pos hh]
      exact mapLookup_eq_none_of_not_mem k rest (hh ▸ h.1)
    · rw [mapDelete, if_neg hh, mapLookup, if_neg hh]
      exact ih h.2

theorem countKey_eq_zero_of_lookup_none (d : String) (m : List (String × ℕ))
    (h : mapLookup d m = none) :
    List.countP (fun p => decide (p.1 = d)) m = 0 := by
  induction m with
  | nil => simp
  | cons head rest ih =>
    rw [mapLookup] at h
    by_cases hh : head.1 = d
    · rw [if_pos hh] at h
      exact absurd h (by simp)
    · rw [if_neg hh] at h
      rw [List.countP_cons_of_neg _ _ (by simp [hh])]
      exact ih h

theorem countKey_mapAssign_of_lookup_none (d : String) (v : ℕ) (m : List (String × ℕ))
    (h : mapLookup d m = none) :
    List.countP (fun p => decide (p.1 = d)) (mapAssign d v m) = 1 := by
  induction m with
  | nil => simp [mapAssign]
  | cons head rest ih =>
    rw [mapLookup] at h
    by_cases hh : head.1 = d
    · rw [if_pos hh] at h
      exact absurd h (by simp)
    · rw [if_neg hh] at h
      rw [mapAssign, if_neg hh, List.countP_cons_of_neg _ _ (by simp [hh])]
      exact ih h

theorem countKey_le_one (d : String) (m : List (String × ℕ))
    (h : NodupKeys m) : List.countP (fun p => decide (p.1 = d)) m ≤ 1 := by
  induction m with
  | nil => simp
  | cons head rest ih =>
    rw [NodupKeys, List.map_cons, List.nodup_cons] at h
    by_cases hh : head.1 = d
    · rw [List.countP_cons_of_pos _ _ (by simp [hh]),
        countKey_eq_zero_of_lookup_none d rest
          (mapLookup_eq_none_of_not_mem d rest (hh ▸ h.1))]
    · rw [List.countP_cons_of_neg _ _ (by simp [hh])]
      exact ih h.2

/-! Controller-level invariant lemmas. -/

theorem nodupKeys_stopScene (st : ControllerState) (d : String)
    (h : NodupKeys st.activeScenes) : NodupKeys (stopScene st d).activeScenes := by
  rw [stopScene]
  cases mapLookup d st.activeScenes with
  | none => exact h
  | some tok => exact nodupKeys_mapDelete d st.activeScenes h

theorem nodupKeys_setScene (st : ControllerState) (d : String) (s : Scene)
    (h : NodupKeys st.activeScenes) : NodupKeys (setScene st d s).activeScenes :=
  nodupKeys_mapAssign d (stopScene st d).nextToken (stopScene st d).activeScenes
    (nodupKeys_stopScene st d h)

theorem nodupKeys_applyOp (st : ControllerState) (op : SceneOp)
    (h : NodupKeys st.activeScenes) : NodupKeys (applyOp st op).activeScenes := by
  cases op with
  | set d s => exact nodupKeys_setScene st d s h
  | stop d => exact nodupKeys_stopScene st d h

theorem nodupKeys_runOpsFrom (st : ControllerState) (ops : List SceneOp)
    (h : NodupKeys st.activeScenes) : NodupKeys (runOpsFrom st ops).activeScenes := by
  induction ops generalizing st with
  | nil => exact h
  | cons op rest ih => exact ih (applyOp st op) (nodupKeys_applyOp st op h)

theorem nodupKeys_runOps (ops : List SceneOp) : NodupKeys (runOps ops).activeScenes :=
  nodupKeys_runOpsFrom initController ops (by simp [NodupKeys, initController])

theorem mapLookup_stopScene_self (st : ControllerState) (d : String)
    (h : NodupKeys st.activeScenes) :
    mapLookup d (stopScene st d).activeScenes = none := by
  rw [stopScene]
  cases hl : mapLookup d st.activeScenes with
  | none => exact hl
  | some tok => exact mapLookup_mapDelete_self d st.activeScenes h

theorem countFor_setScene (st : ControllerState) (d : String) (s : Scene)
    (h : NodupKeys st.activeScenes) : countFor d (setScene st d s) = 1 :=
  countKey_mapAssign_of_lookup_none d (stopScene st d).nextToken
    (stopScene st d).activeScenes (mapLookup_stopScene_self st d h)

theorem isActive_setScene (st : ControllerState) (d : String) (s : Scene) :
    isActive (setScene st d s) d = true := by
  rw [isActive, setScene, mapLookup_assign_self]
  rfl

theorem mapLookup_stopScene_ne (st : ControllerState) (d' d : String)
    (hne : d' ≠ d) :
    mapLookup d (stopScene st d').activeScenes = mapLookup d st.activeScenes := by
  rw [stopScene]
  cases hl : mapLookup d' st.activeScenes with
  | none => rfl
  | some tok => exact mapLookup_delete_ne d' d st.activeScenes hne

theorem isActive_applyOp_other (st : ControllerState) (op : SceneOp) (d : String)
    (hop : opDevice op ≠ d) : isActive (applyOp st op) d = isActive st d := by
  cases op with
  | set d' s =>
    have hne : d' ≠ d := hop
    rw [applyOp, isActive, setScene, mapLookup_assign_ne d' d _ _ hne,
      mapLookup_stopScene_ne st d' d hne]
    rfl
  | stop d' =>
    have hne : d' ≠ d := hop
    rw [applyOp, isActive, mapLookup_stopScene_ne st d' d hne]
    rfl

/-! C1: at most one registration per device; SetScene replaces. -/

/-- C1: starting from the fresh controller, any sequence of SetScene and
StopScene operations leaves at most one registration per device (SetScene
removes any existing registration for the device, via StopScene, before
inserting the new one); after a trailing pair of SetScene calls for `d` —
two in succession — exactly one registration for `d` exists and `IsActive d`
holds. -/
theorem sceneController_unique_registration (ops : List SceneOp) (d : String) :
    countFor d (runOps ops) ≤ 1 ∧
    ∀ s s' : Scene,
      countFor d (runOps (ops ++ [SceneOp.set d s, SceneOp.set d s'])) = 1 ∧
      isActive (runOps (ops ++ [SceneOp.set d s, SceneOp.set d s'])) d = true := by
  have hrw : ∀ s s' : Scene, runOps (ops ++ [SceneOp.set d s, SceneOp.set d s']) =
      setScene (setScene (runOps ops) d s) d s' := by
    intro s s'
    simp [runOps, runOpsFrom, List.foldl_append, applyOp]
  refine ⟨countKey_le_one d _ (nodupKeys_runOps ops), fun s s' => ?_⟩
  rw [hrw s s']
  exact ⟨countFor_setScene _ d s' (nodupKeys_setScene _ d s (nodupKeys_runOps ops)),
    isActive_setScene _ d s'⟩

/-! C2: a scene with an empty palette. -/

/-- C2 (amended): for a scene whose palette holds no colors, the playback
loop terminates immediately without issuing any device command — but the
registration made by SetScene stays in place: `IsActive` is true right
after SetScene and remains true under any further operations that do not
address the device (the loop itself never removes its registration, only
StopScene or a replacing SetScene does). -/
theorem emptyScene_terminates_silently (K : Kern) (scene : Scene)
    (hp : scene.palette.color = []) :
    (∀ fuel, runDynamicScene K scene fuel = ([], true)) ∧
    (∀ st d, isActive (setScene st d scene) d = true) ∧
    (∀ (st : ControllerState) (d : String) (ops : List SceneOp),
      isActive st d = true → (∀ op ∈ ops, opDevice op ≠ d) →
      isActive (runOpsFrom st ops) d = true) := by
  refine ⟨fun fuel => by simp [runDynamicScene, hp],
    fun st d => isActive_setScene st d scene, ?_⟩
  intro st d ops
  induction ops generalizing st with
  | nil => exact fun h _ => h
  | cons op rest ih =>
    intro h hops
    have hpres : isActive (applyOp st op) d = true := by
      rw [isActive_applyOp_other st op d (hops op (List.mem_cons_self op rest))]
      exact h
    exact ih (applyOp st op) hpres fun o ho => hops o (List.mem_cons_of_mem op ho)

/-- Witness for C2's amended statement at the concrete empty scene. -/
theorem emptyScene_terminates_silently_witness :
    runDynamicScene constKern emptyScene 3 = ([], true) ∧
      isActive (setScene initController "dev-a" emptyScene) "dev-a" = true :=
  ⟨(emptyScene_terminates_silently constKern emptyScene rfl).1 3,
   (emptyScene_terminates_silently constKern emptyScene rfl).2.1 initController "dev-a"⟩

/-- C2 counterexample: after `SetScene` with the empty-palette scene the
loop has fully terminated having issued no command, yet `IsActive` is
still true — it never becomes false, contradicting the claimed
"IsActive(d) is eventually false". -/
theorem emptyScene_leaves_registration :
    runDynamicScene constKern emptyScene 7 = ([], true) ∧
      isActive (runOps [SceneOp.set "govee-1" emptyScene]) "govee-1" = true := by
  constructor
  · simp [runDynamicScene, emptyScene]
  · simp [runOps, runOpsFrom, applyOp, setScene, stopScene, initController,
      mapLookup, mapAssign, isActive]

/-! C4: the xy→XYZ conversion divides by the corrected y with no guard. -/

/-- C4 (amended): the conversion carries no guard for `y = 0`: whenever the
gamut-corrected chromaticity has `y = 0` the code performs the division
`Y/y` by zero and the result is undefined (`none` in the embedding —
IEEE Inf/NaN propagation followed by implementation-dependent `int`
conversions in Go); it is *not* resolved to black and there is no error
channel in the function's signature. The conversion is defined exactly
when the corrected `y` is nonzero. -/
theorem coordsToRGB_undefined_iff (K : Kern) (x y : ℚ) (bri : ℤ)
    (gt : GamutType) (g : Gamut) :
    coordsToRGB K x y bri gt g = none ↔
      (correctToGamut ⟨x, y⟩ (resolveGamut gt g)).y = 0 := by
  by_cases h : (correctToGamut ⟨x, y⟩ (resolveGamut gt g)).y = 0
  · simp [coordsToRGB, h]
  · simp [coordsToRGB, h]

/-- C4 counterexample: a valid gamut whose blue–red edge lies on the
x-axis admits an in-gamut input with corrected `y = 0`; there the
conversion is undefined (`none`) rather than black `(0,0,0)` or a typed
error — the division by zero is reached unguarded. -/
theorem coordsToRGB_y_zero_unguarded :
    isValidGamut gamutXaxis = true ∧
      (correctToGamut ⟨3/10, 0⟩ gamutXaxis).y = 0 ∧
      coordsToRGB constKern (3/10) 0 100 "" gamutXaxis = none := by
  have hin : isInGamut ⟨3/10, 0⟩ gamutXaxis = true := by
    rw [isInGamut_iff]
    norm_num [baryA, baryB, baryC, baryDenominator, gamutXaxis]
  have hvalid : isValidGamut gamutXaxis = true := by
    simp [isValidGamut, gamutXaxis]
  have hcorr : correctToGamut ⟨3/10, 0⟩ gamutXaxis = ⟨3/10, 0⟩ := by
    rw [correctToGamut, if_pos hin]
  have hres : resolveGamut "" gamutXaxis = gamutXaxis := by
    rw [resolveGamut, if_pos hvalid]
  refine ⟨hvalid, by rw [hcorr], ?_⟩
  simp only [coordsToRGB, hres, hcorr]
  simp

/-! Monotonicity helpers for C8. -/

theorem clamp_mono {a b lo hi : ℚ} (hlh : lo ≤ hi) (h : a ≤ b) :
    clamp a lo hi ≤ clamp b lo hi := by
  unfold clamp
  split_ifs <;> linarith

theorem clamp_nonneg_result {a : ℚ} : 0 ≤ clamp a 0 255 := by
  unfold clamp
  split_ifs <;> linarith

theorem clamp_eq_zero_of_nonpos {a : ℚ} (h : a ≤ 0) : clamp a 0 255 = 0 := by
  unfold clamp
  split_ifs <;> linarith

theorem toGamma_mono (K : Kern)
    (hpow : ∀ a b : ℚ, 31308/10000000 ≤ a → a ≤ b → K.pow a (5/12) ≤ K.pow b (5/12))
    (hjunc : 1292/100 * (31308/10000000) ≤
      1055/1000 * K.pow (31308/10000000) (5/12) - 55/1000)
    {a b : ℚ} (h : a ≤ b) : toGamma K a ≤ toGamma K b := by
  unfold toGamma
  split_ifs with h1 h2 h3
  · linarith
  · have hp := hpow (31308/10000000) b le_rfl (le_of_lt (not_le.mp h2))
    linarith
  · exact absurd (h.trans h3) h1
  · have hp := hpow a b (le_of_lt (not_le.mp h1)) h
    linarith

theorem toGamma_nonpos (K : Kern) {v : ℚ} (h : v ≤ 0) : toGamma K v ≤ 0 := by
  unfold toGamma
  rw [if_pos (by linarith : v ≤ 31308/10000000)]
  linarith

theorem goInt_clamp_toGamma_le (K : Kern)
    (hpow : ∀ a b : ℚ, 31308/10000000 ≤ a → a ≤ b → K.pow a (5/12) ≤ K.pow b (5/12))
    (hjunc : 1292/100 * (31308/10000000) ≤
      1055/1000 * K.pow (31308/10000000) (5/12) - 55/1000)
    {v1 v2 : ℚ} (c t1 t2 : ℚ) (hv1 : v1 = t1 * c) (hv2 : v2 = t2 * c)
    (ht1 : 0 ≤ t1) (ht : t1 ≤ t2) :
    goInt (clamp (toGamma K v1 * 255) 0 255) ≤
      goInt (clamp (toGamma K v2 * 255) 0 255) := by
  subst hv1 hv2
  rcases le_or_lt 0 c with hc | hc
  · have h1 : t1 * c ≤ t2 * c := mul_le_mul_of_nonneg_right ht hc
    have h2 := toGamma_mono K hpow hjunc h1
    exact goInt_mono_of_nonneg clamp_nonneg_result (clamp_mono (by norm_num) (by linarith))
  · have h1 : t1 * c ≤ 0 := mul_nonpos_iff.mpr (Or.inl ⟨ht1, hc.le⟩)
    have h2 : t2 * c ≤ 0 := mul_nonpos_iff.mpr (Or.inl ⟨ht1.trans ht, hc.le⟩)
    have g1 : toGamma K (t1 * c) * 255 ≤ 0 := by
      have := toGamma_nonpos K h1
      linarith
    have g2 : toGamma K (t2 * c) * 255 ≤ 0 := by
      have := toGamma_nonpos K h2
      linarith
    rw [clamp_eq_zero_of_nonpos g1, clamp_eq_zero_of_nonpos g2]

/-! C8: channel values are monotone in brightness. -/

/-- C8: for a fixed chromaticity and gamut (whenever the conversion is
defined, i.e. the gamut-corrected `y` is nonzero — in particular at a gamut
vertex, where correction is the identity), each RGB channel produced by
`coordsToRGB` is monotonically non-decreasing in the brightness argument.
The two analytic facts about `math.Pow` the proof needs are hypotheses:
`v ↦ v^(5/12)` is monotone at and above the sRGB junction `0.0031308`, and
the gamma encode does not jump down across the junction. -/
theorem coordsToRGB_monotone_brightness (K : Kern) (x y : ℚ) (gt : GamutType) (g : Gamut)
    (hpow : ∀ a b : ℚ, 31308/10000000 ≤ a → a ≤ b → K.pow a (5/12) ≤ K.pow b (5/12))
    (hjunc : 1292/100 * (31308/10000000) ≤
      1055/1000 * K.pow (31308/10000000) (5/12) - 55/1000)
    (hy : (correctToGamut ⟨x, y⟩ (resolveGamut gt g)).y ≠ 0)
    (b1 b2 : ℤ) (hb1 : 0 ≤ b1) (hb12 : b1 ≤ b2) (hb2 : b2 ≤ 100) :
    rgbLe (coordsToRGB K x y b1 gt g) (coordsToRGB K x y b2 gt g) := by
  have ht1 : (0 : ℚ) ≤ (b1 : ℚ) / 100 := by
    have h : (0 : ℚ) ≤ (b1 : ℚ) := by exact_mod_cast hb1
    linarith
  have ht : (b1 : ℚ) / 100 ≤ (b2 : ℚ) / 100 := by
    have h : (b1 : ℚ) ≤ (b2 : ℚ) := by exact_mod_cast hb12
    linarith
  simp only [coordsToRGB, if_neg hy, rgbLe]
  refine ⟨?_, ?_, ?_⟩
  · exact goInt_clamp_toGamma_le K hpow hjunc
      ((correctToGamut ⟨x, y⟩ (resolveGamut gt g)).x * (32406/10000) /
          (correctToGamut ⟨x, y⟩ (resolveGamut gt g)).y +
        (-(15372/10000)) +
        (1 - (correctToGamut ⟨x, y⟩ (resolveGamut gt g)).x -
            (correctToGamut ⟨x, y⟩ (resolveGamut gt g)).y) * (-(4986/10000)) /
          (correctToGamut ⟨x, y⟩ (resolveGamut gt g)).y)
      ((b1 : ℚ) / 100) ((b2 : ℚ) / 100) (by ring) (by ring) ht1 ht
  · exact goInt_clamp_toGamma_le K hpow hjunc
      ((correctToGamut ⟨x, y⟩ (resolveGamut gt g)).x * (-(9689/10000)) /
          (correctToGamut ⟨x, y⟩ (resolveGamut gt g)).y +
        (18758/10000) +
        (1 - (correctToGamut ⟨x, y⟩ (resolveGamut gt g)).x -
            (correctToGamut ⟨x, y⟩ (resolveGamut gt g)).y) * (415/10000) /
          (correctToGamut ⟨x, y⟩ (resolveGamut gt g)).y)
      ((b1 : ℚ) / 100) ((b2 : ℚ) / 100) (by ring) (by ring) ht1 ht
  · exact goInt_clamp_toGamma_le K hpow hjunc
      ((correctToGamut ⟨x, y⟩ (resolveGamut gt g)).x * (557/10000) /
          (correctToGamut ⟨x, y⟩ (resolveGamut gt g)).y +
        (-(2040/10000)) +
        (1 - (correctToGamut ⟨x, y⟩ (resolveGamut gt g)).x -
            (correctToGamut ⟨x, y⟩ (resolveGamut gt g)).y) * (10570/10000) /
          (correctToGamut ⟨x, y⟩ (resolveGamut gt g)).y)
      ((b1 : ℚ) / 100) ((b2 : ℚ) / 100) (by ring) (by ring) ht1 ht

/-- Witness for C8 at the red vertex of the type-C (default) gamut, with
brightness 0 and 100 and a concrete kernel. -/
theorem coordsToRGB_monotone_brightness_witness :
    rgbLe (coordsToRGB constKern (6915/10000) (3083/10000) 0 "C" zeroGamut)
      (coordsToRGB constKern (6915/10000) (3083/10000) 100 "C" zeroGamut) := by
  have hres : resolveGamut "C" zeroGamut = gamutC := by
    simp [resolveGamut, isValidGamut, zeroGamut, gamutMap]
  have hin : isInGamut ⟨6915/10000, 3083/10000⟩ gamutC = true := by
    rw [isInGamut_iff]
    norm_num [baryA, baryB, baryC, baryDenominator, gamutC]
  have hy : (correctToGamut ⟨6915/10000, 3083/10000⟩
      (resolveGamut "C" zeroGamut)).y ≠ 0 := by
    rw [hres, correctToGamut, if_pos hin]
    norm_num
  exact coordsToRGB_monotone_brightness constKern (6915/10000) (3083/10000) "C" zeroGamut
    (fun a b _ _ => le_rfl) (by norm_num [constKern]) hy 0 100
    (by norm_num) (by norm_num) (by norm_num)

/-! Geometry lemmas for C7. -/

theorem findClosestPoint_onSegment (p1 p2 target : Coords) :
    onSegment p1 p2 (findClosestPoint p1 p2 target).1 := by
  simp only [findClosestPoint]
  split_ifs with h
  · exact ⟨0, le_rfl, by norm_num, by ring, by ring⟩
  · refine ⟨max 0 (min 1 (((target.x - p1.x) * (p2.x - p1.x) +
      (target.y - p1.y) * (p2.y - p1.y)) / ((p2.x - p1.x) * (p2.x - p1.x) +
      (p2.y - p1.y) * (p2.y - p1.y)))), le_max_left _ _,
      max_le (by norm_num) (min_le_left _ _), rfl, rfl⟩

theorem isInGamut_of_onSegment_redGreen (g : Gamut) (hD : baryDenominator g ≠ 0)
    (p : Coords) (h : onSegment g.red g.green p) : isInGamut p g = true := by
  obtain ⟨t, ht0, ht1, hx, hy⟩ := h
  have ha : baryA p g = 1 - t := by
    rw [baryA, div_eq_iff hD, hx, hy, baryDenominator]
    ring
  have hb : baryB p g = t := by
    rw [baryB, div_eq_iff hD, hx, hy, baryDenominator]
    ring
  have hc : baryC p g = 0 := by
    rw [baryC, ha, hb]
    ring
  rw [isInGamut_iff, ha, hb, hc]
  exact ⟨by linarith, by linarith, ht0, ht1, le_rfl, by norm_num⟩

theorem isInGamut_of_onSegment_greenBlue (g : Gamut) (hD : baryDenominator g ≠ 0)
    (p : Coords) (h : onSegment g.green g.blue p) : isInGamut p g = true := by
  obtain ⟨t, ht0, ht1, hx, hy⟩ := h
  have ha : baryA p g = 0 := by
    rw [baryA, div_eq_iff hD, hx, hy, baryDenominator]
    ring
  have hb : baryB p g = 1 - t := by
    rw [baryB, div_eq_iff hD, hx, hy, baryDenominator]
    ring
  have hc : baryC p g = t := by
    rw [baryC, ha, hb]
    ring
  rw [isInGamut_iff, ha, hb, hc]
  exact ⟨le_rfl, by norm_num, by linarith, by linarith, ht0, ht1⟩

theorem isInGamut_of_onSegment_blueRed (g : Gamut) (hD : baryDenominator g ≠ 0)
    (p : Coords) (h : onSegment g.blue g.red p) : isInGamut p g = true := by
  obtain ⟨t, ht0, ht1, hx, hy⟩ := h
  have ha : baryA p g = t := by
    rw [baryA, div_eq_iff hD, hx, hy, baryDenominator]
    ring
  have hb : baryB p g = 0 := by
    rw [baryB, div_eq_iff hD, hx, hy, baryDenominator]
    ring
  have hc : baryC p g = 1 - t := by
    rw [baryC, ha, hb]
    ring
  rw [isInGamut_iff, ha, hb, hc]
  exact ⟨ht0, ht1, le_rfl, by norm_num, by linarith, by linarith⟩

theorem closestOfThree_mem (e1 e2 e3 : Coords × ℚ) :
    closestOfThree e1 e2 e3 = e1 ∨ closestOfThree e1 e2 e3 = e2 ∨
      closestOfThree e1 e2 e3 = e3 := by
  unfold closestOfThree
  split_ifs <;> simp

theorem correctToGamut_eq_closest (p : Coords) (g : Gamut)
    (hout : isInGamut p g = false)
    (hnear : (findClosestPoint g.red g.green p).2 < 100000000000000000000 ∨
      (findClosestPoint g.green g.blue p).2 < 100000000000000000000 ∨
      (findClosestPoint g.blue g.red p).2 < 100000000000000000000) :
    correctToGamut p g = (closestOfThree (findClosestPoint g.red g.green p)
      (findClosestPoint g.green g.blue p) (findClosestPoint g.blue g.red p)).1 := by
  rw [correctToGamut, if_neg (by simp [hout])]
  simp only [List.foldl_cons, List.foldl_nil]
  unfold closestOfThree
  split_ifs <;>
    first
      | rfl
      | (exfalso
         try dsimp only at *
         rcases hnear with hn | hn | hn <;> linarith)

/-! C7: agreement of `correctToGamut` with `isInGamut`. -/

/-- C7 (amended): for a non-degenerate gamut (nonzero barycentric
denominator) and a point within the `1e10` sentinel distance of at least
one edge (in squared form: some projection distance² below `1e20`),
`CorrectToGamut` is the identity iff `IsInGamut` holds; and on an outside
point it returns the globally closest of the three clamped segment
projections, ties resolved in favor of the earlier edge, hence a point
lying on one of the three edges. (Points farther than `1e10` from every
edge defeat the sentinel initialisation and are returned unchanged even
though outside — see the counterexample.) -/
theorem correctToGamut_agrees_isInGamut (p : Coords) (g : Gamut)
    (hD : baryDenominator g ≠ 0)
    (hnear : (findClosestPoint g.red g.green p).2 < 100000000000000000000 ∨
      (findClosestPoint g.green g.blue p).2 < 100000000000000000000 ∨
      (findClosestPoint g.blue g.red p).2 < 100000000000000000000) :
    (correctToGamut p g = p ↔ isInGamut p g = true) ∧
    (isInGamut p g = false →
      correctToGamut p g = (closestOfThree (findClosestPoint g.red g.green p)
        (findClosestPoint g.green g.blue p) (findClosestPoint g.blue g.red p)).1 ∧
      onGamutEdge g (correctToGamut p g)) := by
  by_cases hin : isInGamut p g = true
  · have hcp : correctToGamut p g = p := by rw [correctToGamut, if_pos hin]
    exact ⟨⟨fun _ => hin, fun _ => hcp⟩, fun hfalse => absurd hin (by simp [hfalse])⟩
  · have hout : isInGamut p g = false := by
      cases h : isInGamut p g
      · rfl
      · exact absurd h hin
    have heq := correctToGamut_eq_closest p g hout hnear
    have hedge : onGamutEdge g (correctToGamut p g) := by
      rcases closestOfThree_mem (findClosestPoint g.red g.green p)
        (findClosestPoint g.green g.blue p) (findClosestPoint g.blue g.red p) with hm | hm | hm
      · exact Or.inl (by rw [heq, hm]; exact findClosestPoint_onSegment _ _ _)
      · exact Or.inr (Or.inl (by rw [heq, hm]; exact findClosestPoint_onSegment _ _ _))
      · exact Or.inr (Or.inr (by rw [heq, hm]; exact findClosestPoint_onSegment _ _ _))
    refine ⟨⟨fun hcp => ?_, fun h => absurd h hin⟩, fun _ => ⟨heq, hedge⟩⟩
    rw [hcp] at hedge
    rcases hedge with h | h | h
    · exact isInGamut_of_onSegment_redGreen g hD p h
    · exact isInGamut_of_onSegment_greenBlue g hD p h
    · exact isInGamut_of_onSegment_blueRed g hD p h

/-- Witness for C7's amended statement at a concrete interior point of the
default gamut. -/
theorem correctToGamut_agrees_isInGamut_witness :
    correctToGamut ⟨3/10, 3/10⟩ defaultGamut = ⟨3/10, 3/10⟩ ↔
      isInGamut ⟨3/10, 3/10⟩ defaultGamut = true :=
  (correctToGamut_agrees_isInGamut ⟨3/10, 3/10⟩ defaultGamut
    (by norm_num [baryDenominator, defaultGamut])
    (Or.inl (by norm_num [findClosestPoint, defaultGamut, min_def, max_def]))).1

/-- C7 counterexample: the point `(3·10^10, 0)` is outside the default
gamut, yet `correctToGamut` returns it unchanged — its distance to every
edge exceeds the `1e10` sentinel, so the fold never updates and the
claimed equivalence `CorrectToGamut(p,g) = p ↔ IsInGamut(p,g)` (and the
on-an-edge property) fails as stated for arbitrary points. -/
theorem correctToGamut_far_point_unchanged :
    isInGamut ⟨30000000000, 0⟩ defaultGamut = false ∧
      correctToGamut ⟨30000000000, 0⟩ defaultGamut = ⟨30000000000, 0⟩ := by
  have hfalse : isInGamut ⟨30000000000, 0⟩ defaultGamut = false :=
    isInGamut_eq_false_of_baryA_gt _ _
      (by norm_num [baryA, baryDenominator, defaultGamut])
  refine ⟨hfalse, ?_⟩
  rw [correctToGamut, if_neg (by simp [hfalse])]
  simp only [List.foldl_cons, List.foldl_nil]
  norm_num [findClosestPoint, defaultGamut, min_def, max_def]

end HueToGovee
